import Mathlib

set_option maxRecDepth 10000

/-!
Verification development for the telephony voice-agent bridge
(`src/server/services/mediaStreamHandler.js`, first revision, together with the
start-event queue drain of the second revision in `src/unnamed/part_001`).

The JavaScript handler is shallowly embedded: the per-call mutable `session`
object becomes the `Session` structure, outbound WebSocket traffic becomes an
explicit list of `TwilioMsg` values returned by each operation, and the three
external engines (speech recognition, text generation, speech synthesis) become
oracle functions passed as parameters.  Concurrent flips of the
`userSpeechDetected` flag during the chunked send loop are modelled by an
oracle `Nat → Bool` giving the flag value observed before each frame, and the
flip that can happen while awaiting the synthesizer is modelled by the
`flagDuringTTS : Bool` parameter.
-/

/-- One entry of `session.context`.  In the source each entry is
`\x7b role, parts: [\x7b text \x7d] \x7d` with a single text part; the
one-element `parts` array is flattened into a single `text` field. -/
structure Turn where
  role : String
  text : String
deriving DecidableEq, Repr

/-- The per-call `session` object created by `createSession`.  The Deepgram
stream handle `sttStream` is modelled by its presence (`true` once the live
stream has been attached), and `silenceTimer` by whether a timer is pending. -/
structure Session where
  callId : String
  context : List Turn
  sttStream : Bool
  agentPrompt : String
  agentVoiceId : String
  streamSid : Option String
  isReady : Bool
  audioQueue : List (List Nat)
  isAISpeaking : Bool
  currentAudioChunks : List (List Nat)
  userSpeechDetected : Bool
  interimTranscript : String
  silenceTimer : Bool
deriving DecidableEq, Repr

/-- One outbound JSON message written to the Twilio WebSocket.  `clear`
carries `session.streamSid` verbatim, which in the source may still be null. -/
inductive TwilioMsg where
  | media (streamSid : String) (payload : List Char)
  | mark (streamSid : String) (name : String)
  | clear (streamSid : Option String)
deriving DecidableEq, Repr

/-- The response generator: `contents` (the conversation history) to a reply,
`none` modelling a thrown error. -/
def LLMOracle : Type := List Turn → Option String

/-- The speech synthesizer: text and voice id to audio bytes, `none` modelling
a missing key, a non-ok response or a thrown error (`synthesizeTTS`). -/
def TTSOracle : Type := String → String → Option (List Nat)

/-- JavaScript `String.prototype.trim`: strip leading and trailing
whitespace.  (`String.trim` of the core library is extensionally the same but
is defined through substring primitives that do not reduce well.) -/
def jsTrim (s : String) : String :=
  String.mk (((s.data.dropWhile Char.isWhitespace).reverse.dropWhile Char.isWhitespace).reverse)

/-- The standard base64 alphabet. -/
def base64Alphabet : List Char :=
  "ABCDEFGHIJKLMNOPQRSTUVWXYZabcdefghijklmnopqrstuvwxyz0123456789+/".data

/-- Digit lookup for base64. -/
def base64Char (n : Nat) : Char := base64Alphabet.getD n 'A'

/-- `Buffer.prototype.toString("base64")`: standard base64 with padding,
three input bytes per four output characters. -/
def base64Encode : List Nat → List Char
  | [] => []
  | [b1] => [base64Char (b1 / 4), base64Char (b1 % 4 * 16), '=', '=']
  | [b1, b2] =>
      [base64Char (b1 / 4), base64Char (b1 % 4 * 16 + b2 / 16), base64Char (b2 % 16 * 4), '=']
  | b1 :: b2 :: b3 :: rest =>
      base64Char (b1 / 4) :: base64Char (b1 % 4 * 16 + b2 / 16) ::
      base64Char (b2 % 16 * 4 + b3 / 64) :: base64Char (b3 % 64) :: base64Encode rest

/-- Fuel-indexed splitting of a character list into consecutive slices of at
most 214 characters, mirroring the loop
`for (let i = 0; i < base64Audio.length; i += chunkSize)` with
`chunkSize = 214` in `sendAudioToTwilio`.  The fuel only serves to make the
recursion structural; `chunkPayload` instantiates it with the list length,
which always suffices since every step consumes at least one character. -/
def chunkAux : Nat → List Char → List (List Char)
  | _, [] => []
  | 0, _ => []
  | fuel + 1, c :: rest => (c :: rest).take 214 :: chunkAux fuel ((c :: rest).drop 214)

/-- The chunking performed by `sendAudioToTwilio` on the base64 payload. -/
def chunkPayload (s : List Char) : List (List Char) := chunkAux s.length s

/-- The send loop of `sendAudioToTwilio`: before frame `i` the current value
of `session.userSpeechDetected` (supplied by `oracle`) is checked; if it is
set the remaining frames are dropped and the function returns (flag `true` in
the result signals this early abort), otherwise one `media` message is sent. -/
def sendLoop (oracle : Nat → Bool) (sid : String) :
    List (List Char) → Nat → List TwilioMsg × Bool
  | [], _ => ([], false)
  | chunk :: rest, i =>
    if oracle i then ([], true)
    else
      let r := sendLoop oracle sid rest (i + 1)
      (TwilioMsg.media sid chunk :: r.1, r.2)

/-- `sendAudioToTwilio(session, audioBuffer)`: queue the clip while the stream
is not ready or the stream sid is unknown; otherwise base64-encode it, send it
in chunks of 214 characters with the interruption check before every frame,
and (only) when the loop runs to completion follow with one
`mark \x7b name: "audio_complete" \x7d` message.  On early abort the speaking
flag is cleared and the function returns before the mark is sent. -/
def sendAudioToTwilio (oracle : Nat → Bool) (s : Session) (audioBuffer : List Nat) :
    Session × List TwilioMsg :=
  match s.streamSid with
  | none => ({ s with audioQueue := s.audioQueue ++ [audioBuffer] }, [])
  | some sid =>
    if s.isReady then
      let r := sendLoop oracle sid (chunkPayload (base64Encode audioBuffer)) 0
      if r.2 then ({ s with isAISpeaking := false }, r.1)
      else (s, r.1 ++ [TwilioMsg.mark sid "audio_complete"])
    else ({ s with audioQueue := s.audioQueue ++ [audioBuffer] }, [])

/-- `handleInterruption(session)`: stop the agent, drop its buffered audio
chunks, send a `clear` message carrying the current stream sid, and record
that the caller is speaking. -/
def handleInterruption (s : Session) : Session × List TwilioMsg :=
  ({ s with isAISpeaking := false, currentAudioChunks := [], userSpeechDetected := true },
   [TwilioMsg.clear s.streamSid])

/-- `appendToContext(session, text, role)`. -/
def appendToContext (s : Session) (text role : String) : Session :=
  { s with context := s.context ++ [{ role := role, text := text }] }

/-- The fixed apology returned by `callLLM` when the generator throws. -/
def fallbackResponse : String := "I apologize, I'm having trouble processing that right now."

/-- `callLLM(session)`: ask the generator for a reply to the current history;
a thrown error (`none` from the oracle) degrades to the fixed apology. -/
def callLLM (llm : LLMOracle) (s : Session) : String :=
  match llm s.context with
  | some text => text
  | none => fallbackResponse

/-- `speakWithInterruption(session, text)`: raise the speaking flag, reset the
caller-speech flag, synthesize; on missing audio just lower the speaking flag.
Otherwise push the clip, re-read the caller-speech flag (which a concurrent
media or interim-transcript event may have raised while the synthesis was
awaited, modelled by `flagDuringTTS`) and either give up or deliver. -/
def speakWithInterruption (tts : TTSOracle) (oracle : Nat → Bool) (flagDuringTTS : Bool)
    (s : Session) (text : String) : Session × List TwilioMsg :=
  let s1 := { s with isAISpeaking := true, userSpeechDetected := false }
  match tts text s1.agentVoiceId with
  | none => ({ s1 with isAISpeaking := false, userSpeechDetected := flagDuringTTS }, [])
  | some ttsAudio =>
    let s2 := { s1 with userSpeechDetected := flagDuringTTS,
                        currentAudioChunks := s1.currentAudioChunks ++ [ttsAudio] }
    if s2.userSpeechDetected then ({ s2 with isAISpeaking := false }, [])
    else sendAudioToTwilio oracle s2 ttsAudio

/-- `handleUserMessage(session, userMessage)`: generate a reply, append the
model turn, and speak it.  (The caller appends the user turn beforehand.) -/
def handleUserMessage (llm : LLMOracle) (tts : TTSOracle) (oracle : Nat → Bool)
    (flagDuringTTS : Bool) (s : Session) (_userMessage : String) :
    Session × List TwilioMsg :=
  let llmResponse := callLLM llm s
  let s1 := appendToContext s llmResponse "model"
  speakWithInterruption tts oracle flagDuringTTS s1 llmResponse

/-- The Deepgram transcript handler registered in `handleConnection`
(first revision): blank transcripts are dropped; interim transcripts update
`interimTranscript` and, when the agent is speaking and the transcript is
longer than 3 characters, trigger `handleInterruption`; final transcripts
clear the pending silence timer, append the user turn and run
`handleUserMessage`. -/
def onTranscript (llm : LLMOracle) (tts : TTSOracle) (oracle : Nat → Bool)
    (flagDuringTTS : Bool) (s : Session) (transcript : String) (isFinal : Bool) :
    Session × List TwilioMsg :=
  if jsTrim transcript = "" then (s, [])
  else if isFinal = false then
    let s1 := { s with interimTranscript := transcript }
    if s1.isAISpeaking = true ∧ 3 < transcript.length then handleInterruption s1
    else (s1, [])
  else
    let s1 := { s with silenceTimer := false }
    let s2 := appendToContext s1 transcript "user"
    handleUserMessage llm tts oracle flagDuringTTS s2 transcript

/-- The `media` branch of the WebSocket message handler (first revision): when
a session with an attached recognizer stream exists and the base64 payload
decodes to a non-empty buffer, forward the bytes to the recognizer and set
`userSpeechDetected` unconditionally.  The returned list is the audio
forwarded to the recognizer. -/
def onMedia (s : Session) (decodedPayload : List Nat) : Session × List (List Nat) :=
  if s.sttStream = true ∧ decodedPayload ≠ [] then
    ({ s with userSpeechDetected := true }, [decodedPayload])
  else (s, [])

/-- The queue drain of the `start` branch in `src/unnamed/part_001`
(lines 162-174): each queued clip is handed to `sendAudioToTwilio` in FIFO
order.  That revision of the sender has no interruption check, which the
constantly false oracle reflects. -/
def drainLoop : Session → List (List Nat) → Session × List TwilioMsg
  | s, [] => (s, [])
  | s, buf :: rest =>
    let r := sendAudioToTwilio (fun _ => false) s buf
    let r2 := drainLoop r.1 rest
    (r2.1, r.2 ++ r2.2)

/-- The `start` branch of `src/unnamed/part_001`: record the stream sid, mark
the session ready, send every queued clip in enqueue order, then empty the
queue.  (The greeting scheduled afterwards is a separate asynchronous event
and is not part of this step.) -/
def onStart (s : Session) (sid : String) : Session × List TwilioMsg :=
  let s1 := { s with streamSid := some sid, isReady := true }
  let r := drainLoop s1 s1.audioQueue
  ({ r.1 with audioQueue := [] }, r.2)

/-- `createSession(callId, agentPrompt, agentVoiceId, ws)` with the falsy
default for the voice id. -/
def createSession (callId agentPrompt agentVoiceId : String) : Session :=
  { callId := callId, context := [], sttStream := false, agentPrompt := agentPrompt,
    agentVoiceId := if agentVoiceId = "" then "21m00Tcm4TlvDq8ikWAM" else agentVoiceId,
    streamSid := none, isReady := false, audioQueue := [],
    isAISpeaking := false, currentAudioChunks := [], userSpeechDetected := false,
    interimTranscript := "", silenceTimer := false }

/-- The module-level `sessions` map, call id to session.  A JavaScript `Map`
keeps at most one entry per key, so deleting a key is removing every pair
whose first component is that key. -/
def Registry : Type := List (String × Session)

/-- `sessions.get(callId)`. -/
def regGet (r : Registry) (callId : String) : Option Session :=
  (List.find? (fun p => p.1 == callId) r).map (fun p => p.2)

/-- `sessions.delete(callId)`. -/
def regDelete (r : Registry) (callId : String) : Registry :=
  List.filter (fun p => p.1 != callId) r

/-- `endSession(callId)`: when the session exists, release its recognizer
stream and timer (external effects) and remove it from the registry; when it
does not, do nothing. -/
def endSession (r : Registry) (callId : String) : Registry :=
  match regGet r callId with
  | some _ => regDelete r callId
  | none => r

/-- Number of `media` messages in an outbound message list. -/
def mediaCount (msgs : List TwilioMsg) : Nat :=
  (msgs.filter fun m => match m with
    | TwilioMsg.media _ _ => true
    | _ => false).length

/-- Number of `mark` messages with the given name. -/
def markCount (msgs : List TwilioMsg) (name : String) : Nat :=
  (msgs.filter fun m => match m with
    | TwilioMsg.mark _ n => n == name
    | _ => false).length

/-- The payloads of the `media` messages, in send order. -/
def mediaPayloads (msgs : List TwilioMsg) : List (List Char) :=
  msgs.filterMap fun m => match m with
    | TwilioMsg.media _ p => some p
    | _ => none

/-- The full message sequence `sendAudioToTwilio` produces for one clip when
it is not interrupted: the chunked frames followed by the completion mark. -/
def clipMsgs (sid : String) (buf : List Nat) : List TwilioMsg :=
  (chunkPayload (base64Encode buf)).map (TwilioMsg.media sid) ++
    [TwilioMsg.mark sid "audio_complete"]

/-- Processing a list of transcripts as final transcript events, in order,
keeping only the session state. -/
def processFinals (llm : LLMOracle) (tts : TTSOracle) (oracle : Nat → Bool)
    (flagDuringTTS : Bool) : Session → List String → Session
  | s, [] => s
  | s, t :: ts =>
      processFinals llm tts oracle flagDuringTTS
        (onTranscript llm tts oracle flagDuringTTS s t true).1 ts

/-- The text of a turn when it is a caller turn. -/
def userText (turn : Turn) : Option String :=
  if turn.role = "user" then some turn.text else none

/-- A ready-to-send sample session shared by the concrete evaluations below. -/
def baseSession : Session :=
  { createSession "CA1" "You are a helpful AI assistant." "voice1" with
    sttStream := true, streamSid := some "MZ1", isReady := true }

/-! ### Chunking lemmas -/

theorem chunkAux_flatten (fuel : Nat) :
    ∀ s : List Char, s.length ≤ fuel → (chunkAux fuel s).flatten = s := by
  induction fuel with
  | zero =>
    intro s h
    cases s with
    | nil => rfl
    | cons c rest => simp at h
  | succ n ih =>
    intro s h
    cases s with
    | nil => rfl
    | cons c rest =>
      simp only [chunkAux, List.flatten_cons]
      rw [ih ((c :: rest).drop 214)
        (by simp only [List.length_drop, List.length_cons] at h ⊢; omega)]
      exact List.take_append_drop 214 (c :: rest)

theorem chunkAux_length (fuel : Nat) :
    ∀ s : List Char, s.length ≤ fuel →
      (chunkAux fuel s).length = (s.length + 213) / 214 := by
  induction fuel with
  | zero =>
    intro s h
    cases s with
    | nil => rfl
    | cons c rest => simp at h
  | succ n ih =>
    intro s h
    cases s with
    | nil => rfl
    | cons c rest =>
      simp only [chunkAux, List.length_cons]
      rw [ih ((c :: rest).drop 214)
        (by simp only [List.length_drop, List.length_cons] at h ⊢; omega)]
      simp only [List.length_drop, List.length_cons]
      omega

theorem chunkAux_mem (fuel : Nat) :
    ∀ (s : List Char) (c : List Char), c ∈ chunkAux fuel s → c.length ≤ 214 := by
  induction fuel with
  | zero =>
    intro s c h
    cases s <;> simp [chunkAux] at h
  | succ n ih =>
    intro s c h
    cases s with
    | nil => simp [chunkAux] at h
    | cons a rest =>
      simp only [chunkAux, List.mem_cons] at h
      rcases h with h | h
      · subst h
        simp only [List.length_take]
        omega
      · exact ih _ _ h

theorem chunkPayload_flatten (l : List Char) : (chunkPayload l).flatten = l :=
  chunkAux_flatten l.length l le_rfl

theorem chunkPayload_length (l : List Char) :
    (chunkPayload l).length = (l.length + 213) / 214 :=
  chunkAux_length l.length l le_rfl

theorem chunkPayload_mem (l c : List Char) (h : c ∈ chunkPayload l) : c.length ≤ 214 :=
  chunkAux_mem l.length l c h

/-! ### Counting lemmas -/

theorem mediaCount_append (a b : List TwilioMsg) :
    mediaCount (a ++ b) = mediaCount a + mediaCount b := by
  simp [mediaCount, List.filter_append]

theorem markCount_append (a b : List TwilioMsg) (name : String) :
    markCount (a ++ b) name = markCount a name + markCount b name := by
  simp [markCount, List.filter_append]

theorem mediaPayloads_append (a b : List TwilioMsg) :
    mediaPayloads (a ++ b) = mediaPayloads a ++ mediaPayloads b := by
  simp [mediaPayloads, List.filterMap_append]

theorem mediaCount_map_media (sid : String) (chunks : List (List Char)) :
    mediaCount (chunks.map (TwilioMsg.media sid)) = chunks.length := by
  induction chunks with
  | nil => rfl
  | cons c cs ih => simp [mediaCount, List.filter_cons] at ih ⊢; omega

theorem markCount_map_media (sid : String) (chunks : List (List Char)) (name : String) :
    markCount (chunks.map (TwilioMsg.media sid)) name = 0 := by
  induction chunks with
  | nil => rfl
  | cons c cs ih => simp [markCount, List.filter_cons] at ih ⊢

theorem mediaPayloads_map_media (sid : String) (chunks : List (List Char)) :
    mediaPayloads (chunks.map (TwilioMsg.media sid)) = chunks := by
  induction chunks with
  | nil => rfl
  | cons c cs ih => simpa [mediaPayloads, List.filterMap_cons] using ih

theorem markCount_single (sid name : String) :
    markCount [TwilioMsg.mark sid name] name = 1 := by
  simp [markCount, List.filter_cons]

/-! ### Send-loop lemmas -/

theorem sendLoop_false (oracle : Nat → Bool) (sid : String)
    (h : ∀ i, oracle i = false) :
    ∀ (chunks : List (List Char)) (k : Nat),
      sendLoop oracle sid chunks k = (chunks.map (TwilioMsg.media sid), false) := by
  intro chunks
  induction chunks with
  | nil => intro k; rfl
  | cons c cs ih => intro k; simp [sendLoop, h k, ih (k + 1)]

theorem sendLoop_aborted (oracle : Nat → Bool) (sid : String) :
    ∀ (chunks : List (List Char)) (k : Nat),
      (sendLoop oracle sid chunks k).2
        = (List.range chunks.length).any (fun i => oracle (k + i)) := by
  intro chunks
  induction chunks with
  | nil => intro k; rfl
  | cons c cs ih =>
    intro k
    have e : (fun i => oracle (k + (i + 1))) = (fun i => oracle (k + 1 + i)) := by
      funext i
      congr 1
      omega
    cases h : oracle k with
    | true =>
      simp [sendLoop, h, List.length_cons, List.range_succ_eq_map, List.any_cons]
    | false =>
      simp only [sendLoop, h, Bool.false_eq_true, if_false, List.length_cons,
        List.range_succ_eq_map, List.any_cons, List.any_map, Function.comp,
        Nat.succ_eq_add_one, Nat.add_zero]
      rw [ih (k + 1)]
      have e2 : ((fun i => oracle (k + i)) ∘ Nat.succ) = fun i => oracle (k + 1 + i) := by
        funext i
        simp only [Function.comp_apply]
        congr 1
        omega
      rw [e2]
      simp [h]

theorem sendLoop_marks (oracle : Nat → Bool) (sid : String) (name : String) :
    ∀ (chunks : List (List Char)) (k : Nat),
      markCount (sendLoop oracle sid chunks k).1 name = 0 := by
  intro chunks
  induction chunks with
  | nil => intro k; rfl
  | cons c cs ih =>
    intro k
    cases h : oracle k with
    | true => simp [sendLoop, h, markCount]
    | false => simpa [sendLoop, h, markCount, List.filter_cons] using ih (k + 1)

/-! ### Delivery lemmas -/

theorem sendAudio_ready (oracle : Nat → Bool) (s : Session) (sid : String) (buf : List Nat)
    (hready : s.isReady = true) (hsid : s.streamSid = some sid)
    (hor : ∀ i, oracle i = false) :
    sendAudioToTwilio oracle s buf = (s, clipMsgs sid buf) := by
  unfold sendAudioToTwilio
  rw [hsid]
  simp only [hready, if_true, sendLoop_false oracle sid hor, Bool.false_eq_true, if_false,
    clipMsgs]

theorem sendAudio_not_ready (oracle : Nat → Bool) (s : Session) (buf : List Nat)
    (h : s.isReady = false ∨ s.streamSid = none) :
    sendAudioToTwilio oracle s buf
      = ({ s with audioQueue := s.audioQueue ++ [buf] }, []) := by
  unfold sendAudioToTwilio
  cases hsid : s.streamSid with
  | none => rfl
  | some sid =>
    rcases h with h | h
    · simp [h]
    · rw [hsid] at h
      exact absurd h (by simp)

theorem mediaCount_oracle_true (s : Session) (buf : List Nat) :
    mediaCount (sendAudioToTwilio (fun _ => true) s buf).2 = 0 := by
  unfold sendAudioToTwilio
  cases hsid : s.streamSid with
  | none => rfl
  | some sid =>
    by_cases hr : s.isReady
    · simp only [hr, if_true]
      cases hc : chunkPayload (base64Encode buf) with
      | nil => simp [sendLoop, mediaCount]
      | cons c cs => simp [sendLoop, mediaCount]
    · simp [hr, mediaCount]

theorem sendAudio_context (oracle : Nat → Bool) (s : Session) (buf : List Nat) :
    (sendAudioToTwilio oracle s buf).1.context = s.context := by
  unfold sendAudioToTwilio
  cases s.streamSid with
  | none => rfl
  | some sid =>
    by_cases hr : s.isReady
    · simp only [hr, if_true]
      by_cases ha : (sendLoop oracle sid (chunkPayload (base64Encode buf)) 0).2
      · simp [ha]
      · simp [ha]
    · simp [hr]

theorem sendAudio_chunks (oracle : Nat → Bool) (s : Session) (buf : List Nat) :
    (sendAudioToTwilio oracle s buf).1.currentAudioChunks = s.currentAudioChunks := by
  unfold sendAudioToTwilio
  cases s.streamSid with
  | none => rfl
  | some sid =>
    by_cases hr : s.isReady
    · simp only [hr, if_true]
      by_cases ha : (sendLoop oracle sid (chunkPayload (base64Encode buf)) 0).2
      · simp [ha]
      · simp [ha]
    · simp [hr]

theorem speak_context (tts : TTSOracle) (oracle : Nat → Bool) (flagDuringTTS : Bool)
    (s : Session) (text : String) :
    (speakWithInterruption tts oracle flagDuringTTS s text).1.context = s.context := by
  simp only [speakWithInterruption]
  cases h : tts text s.agentVoiceId with
  | none => simp
  | some audio =>
    dsimp only
    by_cases hf : flagDuringTTS = true
    · simp [hf]
    · rw [if_neg hf, sendAudio_context]

theorem speak_chunks (tts : TTSOracle) (oracle : Nat → Bool) (flagDuringTTS : Bool)
    (s : Session) (text : String) :
    (speakWithInterruption tts oracle flagDuringTTS s text).1.currentAudioChunks
      = (match tts text s.agentVoiceId with
          | none => s.currentAudioChunks
          | some audio => s.currentAudioChunks ++ [audio]) := by
  simp only [speakWithInterruption]
  cases h : tts text s.agentVoiceId with
  | none => simp
  | some audio =>
    dsimp only
    by_cases hf : flagDuringTTS = true
    · simp [hf]
    · rw [if_neg hf, sendAudio_chunks]

theorem onTranscript_final_context (llm : LLMOracle) (tts : TTSOracle)
    (oracle : Nat → Bool) (flagDuringTTS : Bool) (s : Session) (t : String)
    (htrim : ¬ jsTrim t = "") :
    (onTranscript llm tts oracle flagDuringTTS s t true).1.context
      = s.context
        ++ [{ role := "user", text := t },
            { role := "model",
              text := callLLM llm (appendToContext { s with silenceTimer := false } t "user") }] := by
  simp only [onTranscript, handleUserMessage]
  rw [if_neg htrim]
  simp only [Bool.true_eq_false, if_false, if_neg]
  rw [speak_context]
  simp [appendToContext]

theorem drainLoop_ready (sid : String) :
    ∀ (q : List (List Nat)) (s : Session), s.isReady = true → s.streamSid = some sid →
      drainLoop s q = (s, (q.map (clipMsgs sid)).flatten) := by
  intro q
  induction q with
  | nil => intro s h1 h2; rfl
  | cons buf rest ih =>
    intro s h1 h2
    simp only [drainLoop]
    rw [sendAudio_ready (fun _ => false) s sid buf h1 h2 (fun _ => rfl)]
    rw [ih s h1 h2]
    simp

theorem regGet_regDelete (r : Registry) (callId : String) :
    regGet (regDelete r callId) callId = none := by
  induction r with
  | nil => rfl
  | cons p rest ih =>
    simp only [regDelete, List.filter_cons] at ih ⊢
    by_cases h : p.1 = callId
    · simp [h, bne_self_eq_false] at ih ⊢
      simpa [regDelete] using ih
    · have hb : (p.1 != callId) = true := by simp [bne, h]
      simp only [hb, if_true]
      simp only [regGet, List.find?_cons] at ih ⊢
      have hq : (p.1 == callId) = false := by simp [h]
      simp only [hq]
      exact ih

/-! ### Claim theorems -/

/-- C1: for every clip delivered while the session is ready (stream sid known)
and with the interruption flag never observed set during delivery,
`sendAudioToTwilio` sends exactly ceil(L/214) media messages, where L is the
length of the base64 encoding of the clip, every payload is at most 214 base64
characters, the payloads concatenated in order equal the full encoding, and
they are followed by exactly one mark message named audio_complete. -/
theorem c1_chunked_delivery (oracle : Nat → Bool) (s : Session) (sid : String)
    (buf : List Nat) (hready : s.isReady = true) (hsid : s.streamSid = some sid)
    (hor : ∀ i, oracle i = false) :
    mediaCount (sendAudioToTwilio oracle s buf).2
        = ((base64Encode buf).length + 213) / 214 ∧
    ((mediaPayloads (sendAudioToTwilio oracle s buf).2).all
        fun p => p.length ≤ 214) = true ∧
    (mediaPayloads (sendAudioToTwilio oracle s buf).2).flatten = base64Encode buf ∧
    markCount (sendAudioToTwilio oracle s buf).2 "audio_complete" = 1 ∧
    (sendAudioToTwilio oracle s buf).2
      = (chunkPayload (base64Encode buf)).map (TwilioMsg.media sid)
        ++ [TwilioMsg.mark sid "audio_complete"] := by
  rw [sendAudio_ready oracle s sid buf hready hsid hor]
  dsimp only
  refine ⟨?_, ?_, ?_, ?_, by simp [clipMsgs]⟩
  · rw [clipMsgs, mediaCount_append, mediaCount_map_media, chunkPayload_length]
    have : mediaCount [TwilioMsg.mark sid "audio_complete"] = 0 := rfl
    rw [this]
    omega
  · rw [List.all_eq_true]
    intro p hp
    rw [clipMsgs, mediaPayloads_append, mediaPayloads_map_media] at hp
    have : mediaPayloads [TwilioMsg.mark sid "audio_complete"] = [] := rfl
    rw [this, List.append_nil] at hp
    simpa using chunkPayload_mem (base64Encode buf) p hp
  · rw [clipMsgs, mediaPayloads_append, mediaPayloads_map_media]
    have : mediaPayloads [TwilioMsg.mark sid "audio_complete"] = [] := rfl
    rw [this, List.append_nil]
    exact chunkPayload_flatten (base64Encode buf)
  · rw [clipMsgs, markCount_append, markCount_map_media, markCount_single]

/-- Witness for c1: the four-byte clip [0, 1, 2, 3] delivered on a ready
session with the interruption flag constantly unset. -/
theorem c1_chunked_delivery_witness :
    mediaCount (sendAudioToTwilio (fun _ => false) baseSession [0, 1, 2, 3]).2
        = ((base64Encode [0, 1, 2, 3]).length + 213) / 214 ∧
    ((mediaPayloads (sendAudioToTwilio (fun _ => false) baseSession [0, 1, 2, 3]).2).all
        fun p => p.length ≤ 214) = true ∧
    (mediaPayloads (sendAudioToTwilio (fun _ => false) baseSession [0, 1, 2, 3]).2).flatten
        = base64Encode [0, 1, 2, 3] ∧
    markCount (sendAudioToTwilio (fun _ => false) baseSession [0, 1, 2, 3]).2
        "audio_complete" = 1 ∧
    (sendAudioToTwilio (fun _ => false) baseSession [0, 1, 2, 3]).2
      = (chunkPayload (base64Encode [0, 1, 2, 3])).map (TwilioMsg.media "MZ1")
        ++ [TwilioMsg.mark "MZ1" "audio_complete"] :=
  c1_chunked_delivery (fun _ => false) baseSession "MZ1" [0, 1, 2, 3] rfl rfl (fun _ => rfl)

/-- C2 counterexample: a ready session whose interruption flag is observed set
before the first frame of a one-byte clip sends no message at all, in
particular zero audio_complete marks, against the claimed exactly one. -/
theorem c2_mark_counterexample :
    (sendAudioToTwilio (fun _ => true)
        { baseSession with userSpeechDetected := true } [0]).2 = [] ∧
    ¬ markCount (sendAudioToTwilio (fun _ => true)
        { baseSession with userSpeechDetected := true } [0]).2 "audio_complete" = 1 := by
  constructor
  · rfl
  · decide

/-- C2 amended: on a ready session with known stream sid, exactly one
audio_complete mark is sent when no per-frame check observes the interruption
flag, and no mark at all is sent when the delivery aborts early because some
check observed it. -/
theorem c2_mark_amended (oracle : Nat → Bool) (s : Session) (sid : String) (buf : List Nat)
    (hready : s.isReady = true) (hsid : s.streamSid = some sid) :
    markCount (sendAudioToTwilio oracle s buf).2 "audio_complete"
      = if (List.range (chunkPayload (base64Encode buf)).length).any oracle then 0 else 1 := by
  have heta : (fun i => oracle (0 + i)) = oracle := by
    funext i
    simp
  have habort := sendLoop_aborted oracle sid (chunkPayload (base64Encode buf)) 0
  rw [heta] at habort
  have key : (sendAudioToTwilio oracle s buf).2
      = if (sendLoop oracle sid (chunkPayload (base64Encode buf)) 0).2
        then (sendLoop oracle sid (chunkPayload (base64Encode buf)) 0).1
        else (sendLoop oracle sid (chunkPayload (base64Encode buf)) 0).1
          ++ [TwilioMsg.mark sid "audio_complete"] := by
    unfold sendAudioToTwilio
    rw [hsid]
    simp only [hready, if_true]
    by_cases h2 : (sendLoop oracle sid (chunkPayload (base64Encode buf)) 0).2 = true
    · simp [h2]
    · simp [h2]
  rw [key]
  by_cases h2 : (sendLoop oracle sid (chunkPayload (base64Encode buf)) 0).2 = true
  · rw [if_pos h2, if_pos (by rw [← habort]; exact h2)]
    exact sendLoop_marks oracle sid "audio_complete" (chunkPayload (base64Encode buf)) 0
  · rw [if_neg h2, if_neg (by rw [← habort]; exact h2)]
    rw [markCount_append, sendLoop_marks, markCount_single]

/-- Witness for c2_mark_amended: uninterrupted delivery of a one-byte clip on
a ready session yields exactly one mark. -/
theorem c2_mark_amended_witness :
    markCount (sendAudioToTwilio (fun _ => false) baseSession [0]).2 "audio_complete"
      = if (List.range (chunkPayload (base64Encode [0])).length).any (fun _ => false)
        then 0 else 1 :=
  c2_mark_amended (fun _ => false) baseSession "MZ1" [0] rfl rfl

/-- C3: an interim transcript longer than 3 characters arriving while the
agent is speaking clears the speaking flag, discards the buffered audio
chunks, emits exactly one clear message carrying the stream sid of the
session, sets the caller-speech flag, and a chunked delivery consulting that
flag sends no media frame. -/
theorem c3_interim_interruption (llm : LLMOracle) (tts : TTSOracle) (oracle : Nat → Bool)
    (flagDuringTTS : Bool) (s : Session) (t : String) (buf : List Nat)
    (hspeak : s.isAISpeaking = true) (hlen : 3 < t.length) (htrim : ¬ jsTrim t = "") :
    (onTranscript llm tts oracle flagDuringTTS s t false).1.isAISpeaking = false ∧
    (onTranscript llm tts oracle flagDuringTTS s t false).1.currentAudioChunks = [] ∧
    (onTranscript llm tts oracle flagDuringTTS s t false).1.userSpeechDetected = true ∧
    (onTranscript llm tts oracle flagDuringTTS s t false).2
        = [TwilioMsg.clear s.streamSid] ∧
    mediaCount (sendAudioToTwilio
        (fun _ => (onTranscript llm tts oracle flagDuringTTS s t false).1.userSpeechDetected)
        (onTranscript llm tts oracle flagDuringTTS s t false).1 buf).2 = 0 := by
  have hbranch : onTranscript llm tts oracle flagDuringTTS s t false
      = handleInterruption { s with interimTranscript := t } := by
    simp only [onTranscript]
    rw [if_neg htrim]
    rw [if_pos (show s.isAISpeaking = true ∧ 3 < t.length from ⟨hspeak, hlen⟩)]
    exact if_pos trivial
  rw [hbranch]
  refine ⟨rfl, rfl, rfl, rfl, ?_⟩
  have hflag : (handleInterruption { s with interimTranscript := t }).1.userSpeechDetected
      = true := rfl
  rw [hflag]
  exact mediaCount_oracle_true _ buf

/-- Witness for c3: the interim transcript "hello" (length 5) while the
sample session is speaking, followed by an attempted delivery of [0]. -/
theorem c3_interim_interruption_witness :
    (onTranscript (fun _ => none) (fun _ _ => none) (fun _ => false) false
        { baseSession with isAISpeaking := true } "hello" false).1.isAISpeaking = false ∧
    (onTranscript (fun _ => none) (fun _ _ => none) (fun _ => false) false
        { baseSession with isAISpeaking := true } "hello" false).1.currentAudioChunks = [] ∧
    (onTranscript (fun _ => none) (fun _ _ => none) (fun _ => false) false
        { baseSession with isAISpeaking := true } "hello" false).1.userSpeechDetected = true ∧
    (onTranscript (fun _ => none) (fun _ _ => none) (fun _ => false) false
        { baseSession with isAISpeaking := true } "hello" false).2
        = [TwilioMsg.clear { baseSession with isAISpeaking := true }.streamSid] ∧
    mediaCount (sendAudioToTwilio
        (fun _ => (onTranscript (fun _ => none) (fun _ _ => none) (fun _ => false) false
            { baseSession with isAISpeaking := true } "hello" false).1.userSpeechDetected)
        (onTranscript (fun _ => none) (fun _ _ => none) (fun _ => false) false
            { baseSession with isAISpeaking := true } "hello" false).1 [0]).2 = 0 :=
  c3_interim_interruption (fun _ => none) (fun _ _ => none) (fun _ => false) false
    { baseSession with isAISpeaking := true } "hello" [0] rfl (by decide) (by decide)

/-- C4: while the ready flag is false or the stream sid unset, no outbound
message is produced and the clip is appended to the pending queue; and the
start event of the transport delivers every queued clip in FIFO order, each
fully chunked and marked, then empties the queue. -/
theorem c4_queue_fifo (oracle : Nat → Bool) (s : Session) (buf : List Nat) (sid : String)
    (h : s.isReady = false ∨ s.streamSid = none) :
    (sendAudioToTwilio oracle s buf).2 = [] ∧
    (sendAudioToTwilio oracle s buf).1.audioQueue = s.audioQueue ++ [buf] ∧
    (onStart s sid).2 = (s.audioQueue.map (clipMsgs sid)).flatten ∧
    (onStart s sid).1.audioQueue = [] := by
  have hsend := sendAudio_not_ready oracle s buf h
  refine ⟨by rw [hsend], by rw [hsend], ?_, rfl⟩
  simp only [onStart]
  rw [drainLoop_ready sid s.audioQueue { s with streamSid := some sid, isReady := true } rfl rfl]

/-- A session before the start event of the transport, with one queued clip. -/
def queuedSession : Session :=
  { baseSession with isReady := false, streamSid := none, audioQueue := [[5]] }

/-- Witness for c4: a not-yet-ready session with one queued clip, one incoming
clip, and a start event with stream sid MZ2. -/
theorem c4_queue_fifo_witness :
    (sendAudioToTwilio (fun _ => false) queuedSession [7]).2 = [] ∧
    (sendAudioToTwilio (fun _ => false) queuedSession [7]).1.audioQueue
        = queuedSession.audioQueue ++ [[7]] ∧
    (onStart queuedSession "MZ2").2
        = (queuedSession.audioQueue.map (clipMsgs "MZ2")).flatten ∧
    (onStart queuedSession "MZ2").1.audioQueue = [] :=
  c4_queue_fifo (fun _ => false) queuedSession [7] "MZ2" (Or.inl rfl)

/-- C5: processing a sequence of final transcripts with non-blank text
appends, per transcript, exactly one caller turn followed by exactly one agent
turn — the appended role pattern is user, model, user, model, ... in
processing order, and the appended caller texts are the transcripts in
processing order. -/
theorem c5_final_turns (llm : LLMOracle) (tts : TTSOracle) (oracle : Nat → Bool)
    (flagDuringTTS : Bool) (s : Session) (ts : List String)
    (h : ∀ t ∈ ts, ¬ jsTrim t = "") :
    (processFinals llm tts oracle flagDuringTTS s ts).context.map Turn.role
        = s.context.map Turn.role ++ (ts.map fun _ => ["user", "model"]).flatten ∧
    (processFinals llm tts oracle flagDuringTTS s ts).context.filterMap userText
        = s.context.filterMap userText ++ ts := by
  induction ts generalizing s with
  | nil => simp [processFinals]
  | cons t rest ih =>
    have htrim : ¬ jsTrim t = "" := h t (List.mem_cons_self t rest)
    have hrest : ∀ x ∈ rest, ¬ jsTrim x = "" := fun x hx => h x (List.mem_cons_of_mem t hx)
    have hstep := onTranscript_final_context llm tts oracle flagDuringTTS s t htrim
    obtain ⟨ih1, ih2⟩ := ih (onTranscript llm tts oracle flagDuringTTS s t true).1 hrest
    constructor
    · simp only [processFinals]
      rw [ih1, hstep]
      simp [List.map_append]
    · simp only [processFinals]
      rw [ih2, hstep]
      simp [List.filterMap_append, userText]

/-- Witness for c5: the single final transcript "hi" processed on the sample
session with a generator that replies "ok". -/
theorem c5_final_turns_witness :
    (processFinals (fun _ => some "ok") (fun _ _ => none) (fun _ => false) false
        baseSession ["hi"]).context.map Turn.role
        = baseSession.context.map Turn.role
          ++ ((["hi"].map fun _ => ["user", "model"]).flatten) ∧
    (processFinals (fun _ => some "ok") (fun _ _ => none) (fun _ => false) false
        baseSession ["hi"]).context.filterMap userText
        = baseSession.context.filterMap userText ++ ["hi"] :=
  c5_final_turns (fun _ => some "ok") (fun _ _ => none) (fun _ => false) false
    baseSession ["hi"] (by decide)

/-- C6: an interim transcript event never changes the conversation history and
never consults the generator, the synthesizer or the delivery machinery: the
handler result is identical for arbitrary replacements of those oracles, and
the resulting context is the starting context. -/
theorem c6_interim_no_generation (llm llm2 : LLMOracle) (tts tts2 : TTSOracle)
    (oracle oracle2 : Nat → Bool) (flagDuringTTS flagDuringTTS2 : Bool)
    (s : Session) (t : String) :
    onTranscript llm tts oracle flagDuringTTS s t false
      = onTranscript llm2 tts2 oracle2 flagDuringTTS2 s t false ∧
    (onTranscript llm tts oracle flagDuringTTS s t false).1.context = s.context := by
  constructor
  · rfl
  · simp only [onTranscript]
    by_cases htrim : jsTrim t = ""
    · rw [if_pos htrim]
    · rw [if_neg htrim]
      by_cases hcond : s.isAISpeaking = true ∧ 3 < t.length
      · rw [if_pos trivial, if_pos hcond]
        rfl
      · rw [if_pos trivial, if_neg hcond]

/-- C7: when the generator fails on the history extended with the new caller
turn, the agent turn appended to the history is exactly the fixed apology, and
synthesis is attempted on that apology — the turn proceeds exactly as speaking
the apology, and the audio it yields, when any, is pushed into the buffered
chunks. -/
theorem c7_generator_fallback (llm : LLMOracle) (tts : TTSOracle) (oracle : Nat → Bool)
    (flagDuringTTS : Bool) (s : Session) (t : String)
    (htrim : ¬ jsTrim t = "")
    (hfail : llm (s.context ++ [{ role := "user", text := t }]) = none) :
    (onTranscript llm tts oracle flagDuringTTS s t true).1.context
        = s.context ++ [{ role := "user", text := t },
            { role := "model", text := fallbackResponse }] ∧
    onTranscript llm tts oracle flagDuringTTS s t true
        = speakWithInterruption tts oracle flagDuringTTS
            (appendToContext (appendToContext { s with silenceTimer := false } t "user")
              fallbackResponse "model")
            fallbackResponse ∧
    (onTranscript llm tts oracle flagDuringTTS s t true).1.currentAudioChunks
        = (match tts fallbackResponse s.agentVoiceId with
            | none => s.currentAudioChunks
            | some audio => s.currentAudioChunks ++ [audio]) := by
  have hcall : callLLM llm (appendToContext { s with silenceTimer := false } t "user")
      = fallbackResponse := by
    simp only [callLLM, appendToContext]
    rw [hfail]
  have hmain : onTranscript llm tts oracle flagDuringTTS s t true
      = speakWithInterruption tts oracle flagDuringTTS
          (appendToContext (appendToContext { s with silenceTimer := false } t "user")
            fallbackResponse "model")
          fallbackResponse := by
    simp only [onTranscript, handleUserMessage]
    rw [if_neg htrim]
    rw [hcall]
    rw [if_neg (show ¬ ((true : Bool) = false) by decide)]
  refine ⟨?_, hmain, ?_⟩
  · rw [onTranscript_final_context llm tts oracle flagDuringTTS s t htrim, hcall]
  · rw [hmain, speak_chunks]
    rfl

/-- Witness for c7: the final transcript "hello" on the sample session with a
failing generator and a synthesizer that produces the clip [1, 2] for any
text. -/
theorem c7_generator_fallback_witness :
    (onTranscript (fun _ => none) (fun _ _ => some [1, 2]) (fun _ => false) false
        baseSession "hello" true).1.context
        = baseSession.context ++ [{ role := "user", text := "hello" },
            { role := "model", text := fallbackResponse }] ∧
    onTranscript (fun _ => none) (fun _ _ => some [1, 2]) (fun _ => false) false
        baseSession "hello" true
        = speakWithInterruption (fun _ _ => some [1, 2]) (fun _ => false) false
            (appendToContext (appendToContext { baseSession with silenceTimer := false }
              "hello" "user") fallbackResponse "model")
            fallbackResponse ∧
    (onTranscript (fun _ => none) (fun _ _ => some [1, 2]) (fun _ => false) false
        baseSession "hello" true).1.currentAudioChunks
        = (match (fun (_ : String) (_ : String) => some [1, 2]) fallbackResponse
            baseSession.agentVoiceId with
            | none => baseSession.currentAudioChunks
            | some audio => baseSession.currentAudioChunks ++ [audio]) :=
  c7_generator_fallback (fun _ => none) (fun _ _ => some [1, 2]) (fun _ => false) false
    baseSession "hello" (by decide) rfl

/-- C8: when the synthesizer returns no audio for an utterance, no outbound
message at all is produced for it — zero media frames and zero marks — and the
speaking flag ends cleared. -/
theorem c8_synth_no_audio (tts : TTSOracle) (oracle : Nat → Bool) (flagDuringTTS : Bool)
    (s : Session) (text : String)
    (h : tts text s.agentVoiceId = none) :
    (speakWithInterruption tts oracle flagDuringTTS s text).2 = [] ∧
    mediaCount (speakWithInterruption tts oracle flagDuringTTS s text).2 = 0 ∧
    markCount (speakWithInterruption tts oracle flagDuringTTS s text).2 "audio_complete" = 0 ∧
    (speakWithInterruption tts oracle flagDuringTTS s text).1.isAISpeaking = false := by
  simp only [speakWithInterruption]
  rw [h]
  exact ⟨rfl, rfl, rfl, rfl⟩

/-- Witness for c8: a synthesizer that always fails, on the sample session. -/
theorem c8_synth_no_audio_witness :
    (speakWithInterruption (fun _ _ => none) (fun _ => false) false baseSession "hi").2 = [] ∧
    mediaCount (speakWithInterruption (fun _ _ => none) (fun _ => false) false
        baseSession "hi").2 = 0 ∧
    markCount (speakWithInterruption (fun _ _ => none) (fun _ => false) false
        baseSession "hi").2 "audio_complete" = 0 ∧
    (speakWithInterruption (fun _ _ => none) (fun _ => false) false
        baseSession "hi").1.isAISpeaking = false :=
  c8_synth_no_audio (fun _ _ => none) (fun _ => false) false baseSession "hi" rfl

/-- C9: ending a session twice is idempotent on the registry — the second call
finds nothing to remove and leaves the registry, hence every remaining
session, unchanged. -/
theorem c9_endSession_idempotent (r : Registry) (callId : String) :
    endSession (endSession r callId) callId = endSession r callId := by
  cases hg : regGet r callId with
  | none =>
    have h1 : endSession r callId = r := by
      unfold endSession
      rw [hg]
    rw [h1]
    exact h1
  | some sess =>
    have h1 : endSession r callId = regDelete r callId := by
      unfold endSession
      rw [hg]
    rw [h1]
    unfold endSession
    rw [regGet_regDelete]

/-- C10: an inbound media event with a non-empty decoded payload on a session
with an attached recognizer stream forwards the audio to the recognizer and
sets the caller-speech flag unconditionally — the session changes in no other
way, regardless of the speaking flag and with no length threshold — and a
chunked delivery consulting that flag sends no media frame. -/
theorem c10_media_sets_flag (s : Session) (payload : List Nat) (buf : List Nat)
    (hstt : s.sttStream = true) (hpay : payload ≠ []) :
    (onMedia s payload).1 = { s with userSpeechDetected := true } ∧
    (onMedia s payload).2 = [payload] ∧
    (onMedia s payload).1.userSpeechDetected = true ∧
    mediaCount (sendAudioToTwilio (fun _ => (onMedia s payload).1.userSpeechDetected)
        (onMedia s payload).1 buf).2 = 0 := by
  have hcond : onMedia s payload = ({ s with userSpeechDetected := true }, [payload]) := by
    simp only [onMedia]
    rw [if_pos (show s.sttStream = true ∧ payload ≠ [] from ⟨hstt, hpay⟩)]
  rw [hcond]
  exact ⟨rfl, rfl, rfl, mediaCount_oracle_true _ buf⟩

/-- Witness for c10: a one-byte inbound media payload on the sample session
while the agent is speaking, followed by an attempted delivery of [0]. -/
theorem c10_media_sets_flag_witness :
    (onMedia { baseSession with isAISpeaking := true } [255]).1
        = { { baseSession with isAISpeaking := true } with userSpeechDetected := true } ∧
    (onMedia { baseSession with isAISpeaking := true } [255]).2 = [[255]] ∧
    (onMedia { baseSession with isAISpeaking := true } [255]).1.userSpeechDetected = true ∧
    mediaCount (sendAudioToTwilio
        (fun _ => (onMedia { baseSession with isAISpeaking := true } [255]).1.userSpeechDetected)
        (onMedia { baseSession with isAISpeaking := true } [255]).1 [0]).2 = 0 :=
  c10_media_sets_flag { baseSession with isAISpeaking := true } [255] [0] rfl (by decide)
